import Mathlib

/-!
Shallow embedding of the task dispatch and delivery-tracking pipeline of the
tselzap-whatsapp-api repository, together with theorems settling the claims
about it.  The definitions mirror, statement by statement, the TypeScript
source: MobZapService (fetchTasks, convertToMobZapFormat, formatPhoneNumber,
processCallback), TaskController (getTasks, updateTaskStatus, cancelTask),
the Bull message-queue worker, and the webhook notifier (triggerWebhook).
Database rows become list entries, Prisma updates become list maps guarded by
the update's where-filter, and `new Date()` becomes an explicit `now : Nat`.
An `undefined` field passed to a Prisma update (which Prisma skips) is an
`Option` that keeps the stored value when `none` (`setOpt`).
-/

namespace TselZap

/-! ## Data model (prisma/schema.prisma) -/

inductive TaskStatus
  | PENDING
  | PROCESSING
  | COMPLETED
  | FAILED
  | CANCELLED
deriving DecidableEq, Repr

inductive MsgStatus
  | PENDING
  | SENT
  | DELIVERED
  | READ
  | FAILED
deriving DecidableEq, Repr

inductive Direction
  | OUTGOING
  | INCOMING
deriving DecidableEq, Repr

/-- The loosely typed `task.data` JSON payload: each field the translator may
read, absent fields being `none` (JS `undefined`). -/
structure TaskData where
  phoneNumber : Option String := none
  message : Option String := none
  mediaUrl : Option String := none
  mediaType : Option String := none
  caption : Option String := none
  inviteLink : Option String := none
  welcomeMessage : Option String := none
  groupId : Option String := none
  phoneNumbers : Option (List String) := none
  delay : Option Nat := none
deriving DecidableEq, Repr

/-- A row of the `Task` table.  `type` is kept as a string because the source
switches on it duck-typed (with a default branch).  Times are epoch numbers. -/
structure Task where
  id : Nat
  userId : Nat
  deviceId : Option Nat := none
  type : String
  data : TaskData := {}
  priority : Int := 5
  status : TaskStatus := .PENDING
  result : Option String := none
  error : Option String := none
  retryCount : Nat := 0
  maxRetries : Nat := 3
  scheduledAt : Option Nat := none
  executedAt : Option Nat := none
  completedAt : Option Nat := none
  createdAt : Nat := 0
deriving DecidableEq, Repr

/-- A row of the `Message` table.  `metadata` keeps the pair
(remote messageId, result) that processCallback stores. -/
structure Message where
  id : Nat
  userId : Nat
  deviceId : Nat
  taskId : Option Nat := none
  phoneNumber : Option String := none
  content : Option String := none
  status : MsgStatus := .PENDING
  direction : Direction := .OUTGOING
  deliveredAt : Option Nat := none
  readAt : Option Nat := none
  error : Option String := none
  metadata : Option (Option String × Option String) := none
deriving DecidableEq, Repr

/-- The durable state the pipeline mutates: task rows, message rows, and the
id the next created message receives. -/
structure DB where
  tasks : List Task := []
  messages : List Message := []
  nextMessageId : Nat := 0
deriving DecidableEq, Repr

/-- Prisma update semantics for a field fed from a possibly-undefined value:
`undefined` (here `none`) leaves the stored value unchanged. -/
def setOpt {α : Type} (newv oldv : Option α) : Option α :=
  match newv with
  | some v => some v
  | none => oldv

/-- `prisma.task.update(\x7bwhere: \x7bid\x7d\x7d, data)`: apply `f` to the rows whose
id matches. -/
def updateTaskBy (tid : Nat) (f : Task → Task) (l : List Task) : List Task :=
  l.map (fun t => if t.id = tid then f t else t)

/-- `prisma.message.update(\x7bwhere: \x7bid\x7d\x7d, data)` on the message table. -/
def updateMessageBy (mid : Nat) (f : Message → Message) (l : List Message) : List Message :=
  l.map (fun m => if m.id = mid then f m else m)

/-! ## MobZapService.formatPhoneNumber -/

/-- `phone.replace(/\D/g, '')`: keep only digit characters. -/
def cleanDigits (l : List Char) : List Char :=
  l.filter Char.isDigit

/-- `if (!cleaned.startsWith('55')) cleaned = '55' + cleaned`: the
startsWith test is the first two characters being `55`. -/
def addCountryCode (l : List Char) : List Char :=
  if l.take 2 = ['5', '5'] then l else '5' :: '5' :: l

/-- MobZapService.formatPhoneNumber: strip non-digits, then prefix the
country code 55 when absent. -/
def formatPhoneNumber (phone : String) : String :=
  String.mk (addCountryCode (cleanDigits phone.data))

theorem cleanDigits_digits {l : List Char} : ∀ c ∈ cleanDigits l, c.isDigit = true := by
  intro c hc
  exact (List.mem_filter.mp hc).2

theorem addCountryCode_digits {l : List Char} (h : ∀ c ∈ l, c.isDigit = true) :
    ∀ c ∈ addCountryCode l, c.isDigit = true := by
  intro c hc
  unfold addCountryCode at hc
  split at hc
  · exact h c hc
  · simp only [List.mem_cons] at hc
    rcases hc with hc | hc | hc
    · subst hc; decide
    · subst hc; decide
    · exact h c hc

theorem addCountryCode_idem (l : List Char) :
    addCountryCode (addCountryCode l) = addCountryCode l := by
  unfold addCountryCode
  split
  · simp [*]
  · simp

/-- C8: the destination-normalization function is idempotent: applying
formatPhoneNumber twice yields the same result as applying it once, so
normalizing an already-normalized identifier is a no-op. -/
theorem formatPhoneNumber_idempotent (p : String) :
    formatPhoneNumber (formatPhoneNumber p) = formatPhoneNumber p := by
  unfold formatPhoneNumber
  have hdata : (String.mk (addCountryCode (cleanDigits p.data))).data
      = addCountryCode (cleanDigits p.data) := rfl
  rw [hdata]
  have hclean : cleanDigits (addCountryCode (cleanDigits p.data))
      = addCountryCode (cleanDigits p.data) := by
    unfold cleanDigits
    exact List.filter_eq_self.mpr (addCountryCode_digits cleanDigits_digits)
  rw [hclean, addCountryCode_idem]

/-! ## MobZapService.convertToMobZapFormat -/

/-- The flat instruction shape the device app consumes (interface MobZapTask). -/
structure MobZapTask where
  id : Nat
  type : String
  package : String
  number : Option String := none
  numbers : Option (List String) := none
  text : Option String := none
  url : Option String := none
  mediaType : Option String := none
  link : Option String := none
  groupId : Option String := none
  actionChat : Option String := none
  delay : Option Nat := none
deriving DecidableEq, Repr

/-- The only failure the translator can produce: a JS TypeError raised when a
method is called on an undefined payload field (data.phoneNumber.replace or
data.phoneNumbers.map). -/
inductive JsError
  | typeError
deriving DecidableEq, Repr

/-- The task categories the translator's switch handles; any other value of
the type column falls into the default branch. -/
def recognizedTypes : List String :=
  ["MESSAGE", "MEDIA", "GROUP_JOIN", "GROUP_LEAVE", "GROUP_MESSAGE", "BULK_MESSAGE"]

/-- MobZapService.convertToMobZapFormat: switch over task.type.  Returns
`.ok none` for the default branch (the source logs a warning and returns
null), and `.error .typeError` where the source would crash on an undefined
required field. -/
def convertToMobZapFormat (t : Task) (deviceType : String) : Except JsError (Option MobZapTask) :=
  let base : MobZapTask := { id := t.id, type := "chat", package := deviceType.toLower }
  if t.type = "MESSAGE" then
    match t.data.phoneNumber with
    | none => .error .typeError
    | some p =>
        .ok (some { base with type := "chat", number := some (formatPhoneNumber p),
                              text := t.data.message, actionChat := some "send" })
  else if t.type = "MEDIA" then
    match t.data.phoneNumber with
    | none => .error .typeError
    | some p =>
        .ok (some { base with type := "media", number := some (formatPhoneNumber p),
                              url := t.data.mediaUrl,
                              mediaType := some (t.data.mediaType.getD "image"),
                              text := some (t.data.caption.getD "") })
  else if t.type = "GROUP_JOIN" then
    .ok (some { base with type := "group", link := t.data.inviteLink,
                          text := some (t.data.welcomeMessage.getD ""),
                          actionChat := some "join" })
  else if t.type = "GROUP_LEAVE" then
    .ok (some { base with type := "group", groupId := t.data.groupId,
                          actionChat := some "leave" })
  else if t.type = "GROUP_MESSAGE" then
    .ok (some { base with type := "group_message", groupId := t.data.groupId,
                          text := t.data.message })
  else if t.type = "BULK_MESSAGE" then
    match t.data.phoneNumbers with
    | none => .error .typeError
    | some ns =>
        .ok (some { base with type := "bulk", numbers := some (ns.map formatPhoneNumber),
                              text := t.data.message, delay := some (t.data.delay.getD 5000) })
  else
    .ok none

/-- `tasks.map(convertToMobZapFormat).filter(Boolean)` under Promise.all: a
thrown TypeError aborts the whole batch, a null translation is dropped. -/
def convertAll (deviceType : String) : List Task → Except JsError (List MobZapTask)
  | [] => .ok []
  | t :: ts =>
    match convertToMobZapFormat t deviceType with
    | .error e => .error e
    | .ok o =>
      match convertAll deviceType ts with
      | .error e => .error e
      | .ok rest =>
        match o with
        | some m => .ok (m :: rest)
        | none => .ok rest

/-! ## MobZapService.fetchTasks / TaskController.getTasks: select and claim -/

/-- The findMany orderBy key: priority descending, then createdAt ascending.
`taskOrder a b` states that row `a` may be listed no later than row `b`. -/
def taskOrder (a b : Task) : Prop :=
  b.priority < a.priority ∨ (a.priority = b.priority ∧ a.createdAt ≤ b.createdAt)

instance : DecidableRel taskOrder := fun a b => by
  unfold taskOrder
  infer_instance

instance : IsTotal Task taskOrder :=
  ⟨fun a b => by unfold taskOrder; omega⟩

instance : IsTrans Task taskOrder :=
  ⟨fun a b c hab hbc => by unfold taskOrder at *; omega⟩

/-- The findMany where-filter of fetchTasks/getTasks: the user's tasks for the
device, still PENDING, with scheduledAt null or not after the current time. -/
def eligibleTask (u d now : Nat) (t : Task) : Bool :=
  decide (t.userId = u) && decide (t.deviceId = some d) &&
    decide (t.status = TaskStatus.PENDING) &&
    (match t.scheduledAt with
     | none => true
     | some s => decide (s ≤ now))

/-- The rows the fetch query returns: filter, order by (priority desc,
createdAt asc), take 10. -/
def fetchTasksQuery (db : DB) (u d now : Nat) : List Task :=
  (List.insertionSort taskOrder (db.tasks.filter (eligibleTask u d now))).take 10

/-- The per-task claim update: status PROCESSING, executedAt stamped. -/
def claimTask (now : Nat) (t : Task) : Task :=
  { t with status := .PROCESSING, executedAt := some now }

/-- fetchTasks, reduced to its persistent effect: return the selected batch
and mark each selected task PROCESSING (the device-registration, caching and
format-conversion steps do not touch the task rows). -/
def fetchTasks (db : DB) (u d now : Nat) : List Task × DB :=
  let sel := fetchTasksQuery db u d now
  (sel,
   { db with
     tasks := db.tasks.map (fun t =>
       if sel.any (fun s => decide (s.id = t.id)) then claimTask now t else t) })

/-! ## MobZapService.processCallback (the Delivery Reconciler) -/

/-- The deliveryInfo block of a MobZap callback. -/
structure DeliveryInfo where
  delivered : Bool := false
  isRead : Bool := false
  deliveredAt : Option Nat := none
  readAt : Option Nat := none
deriving DecidableEq, Repr

/-- A MobZap callback body (interface MobZapCallback); status is one of the
strings completed, failed, processing. -/
structure Callback where
  taskId : Nat
  status : String
  result : Option String := none
  error : Option String := none
  messageId : Option String := none
  timestamp : Nat := 0
  deliveryInfo : Option DeliveryInfo := none
deriving DecidableEq, Repr

/-- MobZapService.processCallback: look the task up by (id, userId); if
missing, log and return.  Otherwise update the task row, then for MESSAGE or
MEDIA tasks find-or-create the outgoing message and, on a terminal outcome,
update its status from the delivery metadata. -/
def processCallback (db : DB) (userId : Nat) (cb : Callback) (now : Nat) : DB :=
  match db.tasks.find? (fun t => decide (t.id = cb.taskId ∧ t.userId = userId)) with
  | none => db
  | some task =>
    let newStatus : TaskStatus :=
      if cb.status = "completed" then .COMPLETED
      else if cb.status = "failed" then .FAILED
      else .PROCESSING
    let db1 : DB :=
      { db with
        tasks := updateTaskBy cb.taskId (fun t =>
          { t with
            status := newStatus,
            result := setOpt cb.result t.result,
            error := setOpt cb.error t.error,
            completedAt := if cb.status = "completed" then some now else t.completedAt })
          db.tasks }
    if task.type = "MESSAGE" ∨ task.type = "MEDIA" then
      let step :=
        match db1.messages.find? (fun m => decide (m.taskId = some cb.taskId)) with
        | some m => (db1, m.id)
        | none =>
          let m : Message :=
            { id := db1.nextMessageId, userId := userId,
              deviceId := task.deviceId.getD 0, taskId := some cb.taskId,
              phoneNumber := task.data.phoneNumber,
              content := setOpt task.data.message task.data.caption,
              status := .PENDING, direction := .OUTGOING }
          ({ db1 with messages := db1.messages ++ [m],
                      nextMessageId := db1.nextMessageId + 1 },
           db1.nextMessageId)
      let db2 := step.1
      let msgId := step.2
      if cb.status = "completed" then
        { db2 with
          messages := updateMessageBy msgId (fun m =>
            { m with
              status := if (cb.deliveryInfo.map DeliveryInfo.delivered).getD false
                        then .DELIVERED else .SENT,
              deliveredAt := some ((cb.deliveryInfo.bind DeliveryInfo.deliveredAt).getD now),
              readAt := setOpt (cb.deliveryInfo.bind DeliveryInfo.readAt) m.readAt,
              metadata := some (cb.messageId, cb.result) })
            db2.messages }
      else if cb.status = "failed" then
        { db2 with
          messages := updateMessageBy msgId (fun m =>
            { m with status := .FAILED, error := setOpt cb.error m.error })
            db2.messages }
      else db2
    else db1

/-! ## TaskController.updateTaskStatus (the callback endpoint) -/

inductive UpdateResult
  | notFound
  | updated
deriving DecidableEq, Repr

/-- TaskController.updateTaskStatus: look the task up by (id, userId);
missing gives 404.  Otherwise overwrite status/result/error, set completedAt
to now when COMPLETED and to null otherwise, and when the task is a COMPLETED
MESSAGE create a fresh SENT message row unconditionally. -/
def updateTaskStatus (db : DB) (userId taskId : Nat) (status : TaskStatus)
    (result errMsg : Option String) (now : Nat) : UpdateResult × DB :=
  match db.tasks.find? (fun t => decide (t.id = taskId ∧ t.userId = userId)) with
  | none => (.notFound, db)
  | some task =>
    let db1 : DB :=
      { db with
        tasks := updateTaskBy taskId (fun t =>
          { t with
            status := status,
            result := setOpt result t.result,
            error := setOpt errMsg t.error,
            completedAt := if status = TaskStatus.COMPLETED then some now else none })
          db.tasks }
    if status = TaskStatus.COMPLETED ∧ task.type = "MESSAGE" then
      (.updated,
       { db1 with
         messages := db1.messages ++
           [{ id := db1.nextMessageId, userId := userId,
              deviceId := task.deviceId.getD 0, taskId := some task.id,
              phoneNumber := task.data.phoneNumber, content := task.data.message,
              status := .SENT, direction := .OUTGOING, deliveredAt := some now }],
         nextMessageId := db1.nextMessageId + 1 })
    else (.updated, db1)

/-! ## The Bull message-queue worker (queue.service.ts) -/

/-- Outcome of the outbound sendWhatsAppMessage call. -/
inductive SendResult
  | ok (result : String)
  | err (msg : String)
deriving DecidableEq, Repr

/-- messageQueue.process: mark the task PROCESSING, attempt the send; on
success mark it COMPLETED at once, store the result and create a SENT message
row; on a thrown error mark it FAILED and increment retryCount. -/
def processMessageJob (db : DB) (taskId userId deviceId : Nat) (data : TaskData)
    (send : SendResult) (now : Nat) : DB :=
  let db1 : DB :=
    { db with
      tasks := updateTaskBy taskId (fun t =>
        { t with status := .PROCESSING, executedAt := some now }) db.tasks }
  match send with
  | .ok r =>
    let db2 : DB :=
      { db1 with
        tasks := updateTaskBy taskId (fun t =>
          { t with status := .COMPLETED, completedAt := some now, result := some r })
          db1.tasks }
    { db2 with
      messages := db2.messages ++
        [{ id := db2.nextMessageId, userId := userId, deviceId := deviceId,
           taskId := some taskId, phoneNumber := data.phoneNumber,
           content := data.message, status := .SENT, direction := .OUTGOING,
           deliveredAt := some now }],
      nextMessageId := db2.nextMessageId + 1 }
  | .err e =>
    { db1 with
      tasks := updateTaskBy taskId (fun t =>
        { t with status := .FAILED, error := some e, retryCount := t.retryCount + 1 })
        db1.tasks }

/-! ## TaskController.cancelTask -/

inductive CancelResult
  | ok
  | notFound
deriving DecidableEq, Repr

/-- TaskController.cancelTask: find the task by (id, userId, status PENDING);
if none matches (missing, foreign or no longer pending) answer 404 and change
nothing; otherwise set the row CANCELLED. -/
def cancelTask (db : DB) (userId taskId : Nat) : CancelResult × DB :=
  match db.tasks.find? (fun t =>
      decide (t.id = taskId ∧ t.userId = userId ∧ t.status = TaskStatus.PENDING)) with
  | none => (.notFound, db)
  | some _ =>
    (.ok,
     { db with
       tasks := updateTaskBy taskId (fun t => { t with status := .CANCELLED }) db.tasks })

/-! ## webhook.service.ts triggerWebhook (the Webhook Notifier) -/

/-- A row of the Webhook table. -/
structure Webhook where
  id : Nat
  userId : Nat
  url : String := ""
  events : List String := []
  secret : String := ""
  isActive : Bool := true
  lastTriggered : Option Nat := none
  failureCount : Nat := 0
deriving DecidableEq, Repr

/-- The axios POST outcome: a 2xx response, or anything else (non-2xx,
timeout, network error). -/
inductive HttpOutcome
  | success
  | failure
deriving DecidableEq, Repr

/-- The per-subscription delivery step of triggerWebhook: a 2xx resets the
failure counter and stamps lastTriggered; otherwise the counter is
incremented and, when the PRE-increment counter already reached
WEBHOOK_MAX_RETRIES, the subscription is flipped inactive. -/
def deliverOne (maxRetries now : Nat) (outcome : HttpOutcome) (w : Webhook) : Webhook :=
  match outcome with
  | .success => { w with failureCount := 0, lastTriggered := some now }
  | .failure =>
    let w1 := { w with failureCount := w.failureCount + 1 }
    if maxRetries ≤ w.failureCount then { w1 with isActive := false } else w1

/-- The findMany filter of triggerWebhook: the owner's active subscriptions
whose event set has the event. -/
def webhookSelected (u : Nat) (event : String) (w : Webhook) : Bool :=
  decide (w.userId = u) && w.isActive && decide (event ∈ w.events)

/-- The subscriptions a notify call POSTs to: exactly the selected ones. -/
def attemptedDeliveries (u : Nat) (event : String) (ws : List Webhook) : List Webhook :=
  ws.filter (webhookSelected u event)

/-- triggerWebhook: run the delivery step on every selected subscription
(outcomeOf gives each POST's outcome by subscription id), leaving the rest
untouched. -/
def triggerWebhook (maxRetries now u : Nat) (event : String)
    (outcomeOf : Nat → HttpOutcome) (ws : List Webhook) : List Webhook :=
  ws.map (fun w =>
    if webhookSelected u event w then deliverOne maxRetries now (outcomeOf w.id) w else w)

/-! ## Helper lemmas -/

theorem updateTaskBy_at_id {P : Task → Prop} {tid : Nat} {f : Task → Task}
    {l : List Task} (hf : ∀ u, P (f u)) :
    ∀ t ∈ updateTaskBy tid f l, t.id = tid → P t := by
  intro t ht hid
  rcases List.mem_map.mp ht with ⟨u, hu, rfl⟩
  by_cases h : u.id = tid
  · rw [if_pos h]
    exact hf u
  · rw [if_neg h] at hid ⊢
    exact absurd hid h

/-! ## Claim theorems -/

/-- C4: every task the fetch operation claims (returns in the batch that is
transitioned to PROCESSING) has, at claim time, a scheduledAt that is null or
not in the future: whenever it is some s, s is at most the claim time. -/
theorem fetchTasks_claim_respects_schedule (db : DB) (u d now : Nat) :
    ∀ t ∈ (fetchTasks db u d now).1, ∀ s, t.scheduledAt = some s → s ≤ now := by
  intro t ht s hs
  have h1 : t ∈ fetchTasksQuery db u d now := ht
  have h2 : t ∈ List.insertionSort taskOrder (db.tasks.filter (eligibleTask u d now)) :=
    (List.take_sublist _ _).subset h1
  have h3 : t ∈ db.tasks.filter (eligibleTask u d now) :=
    (List.perm_insertionSort taskOrder _).mem_iff.mp h2
  have h4 : eligibleTask u d now t = true := (List.mem_filter.mp h3).2
  simp only [eligibleTask, Bool.and_eq_true] at h4
  have h5 := h4.2
  rw [hs] at h5
  simpa using h5

def taskC4 : Task :=
  { id := 1, userId := 2, deviceId := some 3, type := "MESSAGE",
    status := .PENDING, scheduledAt := some 3 }

def dbC4 : DB := { tasks := [taskC4] }

/-- C4 witness: a concrete fetch at time 10 claims the task scheduled for
time 3, and the theorem yields 3 at most 10. -/
theorem fetchTasks_claim_respects_schedule_witness :
    taskC4 ∈ (fetchTasks dbC4 2 3 10).1 ∧ 3 ≤ 10 :=
  ⟨by decide,
   fetchTasks_claim_respects_schedule dbC4 2 3 10 taskC4 (by decide) 3 (by decide)⟩

/-- C5: the batch the fetch query returns is ordered deterministically by the
orderBy key: any earlier task either has strictly higher priority than any
later one, or equal priority and a createdAt that is not later (strict FIFO
within a priority band). -/
theorem fetchTasks_priority_then_fifo (db : DB) (u d now : Nat) :
    (fetchTasks db u d now).1.Pairwise taskOrder := by
  have hs : (List.insertionSort taskOrder (db.tasks.filter (eligibleTask u d now))).Pairwise
      taskOrder :=
    List.sorted_insertionSort taskOrder _
  exact List.Pairwise.sublist (List.take_sublist _ _) hs

/-- C10: one fetch call returns (and therefore claims) at most 10 tasks: the
query takes the first 10 eligible rows. -/
theorem fetchTasks_batch_at_most_ten (db : DB) (u d now : Nat) :
    (fetchTasks db u d now).1.length ≤ 10 :=
  List.length_take_le 10 _

/-- C6: cancelTask succeeds exactly when a task with that id, owned by that
user, is still PENDING; a rejected request (in particular on a PROCESSING
task) changes nothing, and a successful one drives the task to CANCELLED. -/
theorem cancelTask_only_pending (db : DB) (u tid : Nat) :
    ((cancelTask db u tid).1 = CancelResult.ok ↔
      ∃ t ∈ db.tasks, t.id = tid ∧ t.userId = u ∧ t.status = TaskStatus.PENDING)
    ∧ ((cancelTask db u tid).1 = CancelResult.notFound → (cancelTask db u tid).2 = db)
    ∧ ((cancelTask db u tid).1 = CancelResult.ok →
        ∀ t ∈ (cancelTask db u tid).2.tasks, t.id = tid →
          t.status = TaskStatus.CANCELLED) := by
  cases h : db.tasks.find? (fun t =>
      decide (t.id = tid ∧ t.userId = u ∧ t.status = TaskStatus.PENDING)) with
  | none =>
    have e : cancelTask db u tid = (CancelResult.notFound, db) := by
      unfold cancelTask
      rw [h]
    rw [e]
    refine ⟨?_, fun _ => rfl, ?_⟩
    · constructor
      · intro hok
        simp at hok
      · rintro ⟨t, htm, h1, h2, h3⟩
        have hnone := List.find?_eq_none.mp h t htm
        simp [h1, h2, h3] at hnone
    · intro hok
      simp at hok
  | some x =>
    have e : cancelTask db u tid =
        (CancelResult.ok,
         { db with
           tasks := updateTaskBy tid (fun t => { t with status := .CANCELLED }) db.tasks }) := by
      unfold cancelTask
      rw [h]
    rw [e]
    refine ⟨?_, ?_, ?_⟩
    · constructor
      · intro _
        have hx := List.find?_some h
        simp only [decide_eq_true_eq] at hx
        exact ⟨x, List.mem_of_find?_eq_some h, hx⟩
      · intro _
        rfl
    · intro hnf
      simp at hnf
    · intro _ t ht hid
      exact updateTaskBy_at_id (P := fun t => t.status = TaskStatus.CANCELLED)
        (fun _ => rfl) t ht hid

def taskC6a : Task := { id := 1, userId := 7, type := "MESSAGE", status := .PENDING }

def taskC6b : Task := { id := 2, userId := 7, type := "MESSAGE", status := .PROCESSING }

def dbC6 : DB := { tasks := [taskC6a, taskC6b] }

/-- C6 witness: cancelling the pending task 1 succeeds; cancelling the
processing task 2 is rejected and the stored state is unchanged. -/
theorem cancelTask_only_pending_witness :
    (cancelTask dbC6 7 1).1 = CancelResult.ok
    ∧ (cancelTask dbC6 7 2).1 = CancelResult.notFound
    ∧ (cancelTask dbC6 7 2).2 = dbC6 := by
  refine ⟨?_, by decide, ?_⟩
  · exact (cancelTask_only_pending dbC6 7 1).1.mpr
      ⟨taskC6a, by decide, by decide, by decide, by decide⟩
  · exact (cancelTask_only_pending dbC6 7 2).2.1 (by decide)

def taskC3 : Task :=
  { id := 1, userId := 1, deviceId := some 1, type := "MESSAGE",
    data := { phoneNumber := some "11999887766", message := some "hi" },
    status := .PENDING }

def dbC3 : DB := { tasks := [taskC3] }

/-- C3 counterexample: on a concrete pending task, the message-queue worker
with a successful send leaves the task COMPLETED, not PROCESSING — the
claim that the task is still processing after the worker's execution step is
false on this code path. -/
theorem queue_worker_completes_on_handoff :
    ((processMessageJob dbC3 1 1 1 taskC3.data (SendResult.ok "sent") 5).tasks.map
        Task.status = [TaskStatus.COMPLETED])
    ∧ ((processMessageJob dbC3 1 1 1 taskC3.data (SendResult.ok "sent") 5).tasks.map
        Task.status ≠ [TaskStatus.PROCESSING]) := by
  decide

/-- C3 amended: in the Bull message-queue worker a successful transport
handoff itself completes the task — the task row with the job's id ends the
execution step COMPLETED with completedAt stamped and the result stored, and
a SENT message row is appended — rather than being left PROCESSING for the
reconciler. -/
theorem processMessageJob_success_completes (db : DB) (taskId userId deviceId : Nat)
    (data : TaskData) (r : String) (now : Nat) :
    (∀ t ∈ (processMessageJob db taskId userId deviceId data (SendResult.ok r) now).tasks,
        t.id = taskId →
          t.status = TaskStatus.COMPLETED ∧ t.completedAt = some now ∧ t.result = some r)
    ∧ (processMessageJob db taskId userId deviceId data (SendResult.ok r) now).messages.length
        = db.messages.length + 1 := by
  constructor
  · intro t ht hid
    exact updateTaskBy_at_id
      (P := fun t => t.status = TaskStatus.COMPLETED ∧ t.completedAt = some now
        ∧ t.result = some r)
      (fun _ => ⟨rfl, rfl, rfl⟩) t ht hid
  · simp [processMessageJob]

def taskC3done : Task :=
  { taskC3 with status := .COMPLETED, executedAt := some 5, completedAt := some 5,
                result := some "sent" }

/-- C3 amended witness: the concrete worker run stores exactly the completed
form of the task, and the amended theorem applies to it. -/
theorem processMessageJob_success_completes_witness :
    taskC3done ∈ (processMessageJob dbC3 1 1 1 taskC3.data (SendResult.ok "sent") 5).tasks
    ∧ taskC3done.status = TaskStatus.COMPLETED := by
  refine ⟨by decide, ?_⟩
  exact ((processMessageJob_success_completes dbC3 1 1 1 taskC3.data "sent" 5).1
    taskC3done (by decide) (by decide)).1

def taskC1 : Task :=
  { id := 1, userId := 1, deviceId := some 1, type := "MESSAGE",
    data := { phoneNumber := some "11999887766", message := some "hi" },
    status := .PROCESSING }

def dbC1 : DB := { tasks := [taskC1] }

def cbC1 : Callback := { taskId := 1, status := "completed", result := some "ok" }

def dbC1a : DB := (updateTaskStatus dbC1 1 1 .COMPLETED (some "ok") none 10).2

def dbC1b : DB := (updateTaskStatus dbC1a 1 1 .COMPLETED (some "ok") none 10).2

/-- C1: the reconciliation operations have no already-terminal check, and a
second identical terminal callback is not a no-op: updateTaskStatus creates a
second, duplicate SENT message row (even at the same timestamp), and
processCallback re-stamps completedAt to the later call's time. -/
theorem second_identical_callback_not_noop :
    dbC1a.messages.length = 1
    ∧ dbC1b.messages.length = 2
    ∧ dbC1b ≠ dbC1a
    ∧ (processCallback dbC1 1 cbC1 10).tasks.map Task.completedAt = [some 10]
    ∧ (processCallback (processCallback dbC1 1 cbC1 10) 1 cbC1 20).tasks.map
        Task.completedAt = [some 20] := by
  decide

def taskC2 : Task :=
  { id := 1, userId := 1, deviceId := some 1, type := "MESSAGE",
    data := { phoneNumber := some "11999887766", message := some "hi" },
    status := .PROCESSING }

def msgC2 : Message :=
  { id := 0, userId := 1, deviceId := 1, taskId := some 1, status := .READ }

def dbC2 : DB := { tasks := [taskC2], messages := [msgC2], nextMessageId := 1 }

def cbC2 : Callback :=
  { taskId := 1, status := "completed", deliveryInfo := some { delivered := false } }

/-- C2: the Message status regresses: a message already READ is set back to
SENT by a completed callback whose deliveryInfo has delivered false —
processCallback overwrites the status with no no-regression guard. -/
theorem completed_callback_regresses_read_message :
    dbC2.messages.map Message.status = [MsgStatus.READ]
    ∧ (processCallback dbC2 1 cbC2 30).messages.map Message.status = [MsgStatus.SENT] := by
  decide

def taskC7 : Task :=
  { id := 9, userId := 1, deviceId := some 1, type := "SCHEDULED_MESSAGE",
    data := { phoneNumber := some "11999887766", message := some "hi" },
    status := .PENDING }

/-- C7 counterexample: SCHEDULED_MESSAGE is a schema-valid task type the
translator's switch does not handle; the translation returns null with no
error, and the batch output drops the task — not the claimed explicit
UnknownCategory error reported to the caller. -/
theorem unknown_category_silently_dropped :
    convertToMobZapFormat taskC7 "NORMAL" = Except.ok none
    ∧ convertAll "NORMAL" [taskC7] = Except.ok [] :=
  ⟨rfl, rfl⟩

/-- C7 amended: a task with an unrecognized category translates to null
(.ok none, logged as a warning and filtered out of the batch) rather than an
explicit error, and a missing required destination field is not validated —
for a MESSAGE task with no phoneNumber the translator raises an untyped
runtime TypeError instead of a MalformedPayload result. -/
theorem convert_unknown_and_malformed (t : Task) (dt : String) :
    (t.type ∉ recognizedTypes → convertToMobZapFormat t dt = Except.ok none)
    ∧ (t.type = "MESSAGE" → t.data.phoneNumber = none →
        convertToMobZapFormat t dt = Except.error JsError.typeError) := by
  constructor
  · intro h
    simp only [recognizedTypes, List.mem_cons, List.not_mem_nil, or_false, not_or] at h
    obtain ⟨h1, h2, h3, h4, h5, h6⟩ := h
    simp [convertToMobZapFormat, h1, h2, h3, h4, h5, h6]
  · intro h1 h2
    simp [convertToMobZapFormat, h1, h2]

def taskC7m : Task := { id := 3, userId := 1, type := "MESSAGE" }

/-- C7 amended witness: applied to a concrete SCHEDULED_MESSAGE task and a
concrete MESSAGE task with no phoneNumber. -/
theorem convert_unknown_and_malformed_witness :
    convertToMobZapFormat taskC7 "NORMAL" = Except.ok none
    ∧ convertToMobZapFormat taskC7m "NORMAL" = Except.error JsError.typeError := by
  constructor
  · exact (convert_unknown_and_malformed taskC7 "NORMAL").1 (by decide)
  · exact (convert_unknown_and_malformed taskC7m "NORMAL").2 (by decide) (by decide)

def whC9 : Webhook := { id := 1, userId := 1, events := ["task.failed"] }

def stepC9 (ws : List Webhook) : List Webhook :=
  triggerWebhook 3 0 1 "task.failed" (fun _ => HttpOutcome.failure) ws

/-- C9 counterexample: with WEBHOOK_MAX_RETRIES 3, after three consecutive
failed deliveries the stored failure counter has reached the maximum, yet the
subscription is still active and the next event still attempts a delivery —
the disable check compares the pre-increment counter, so the flip happens one
failure later than the claim states. -/
theorem webhook_still_active_at_max_failures :
    (stepC9 (stepC9 (stepC9 [whC9]))).map Webhook.failureCount = [3]
    ∧ (stepC9 (stepC9 (stepC9 [whC9]))).map Webhook.isActive = [true]
    ∧ attemptedDeliveries 1 "task.failed" (stepC9 (stepC9 (stepC9 [whC9]))) ≠ [] := by
  decide

/-- C9 amended: a failed delivery increments the counter and flips the
subscription inactive exactly when the pre-increment counter had already
reached WEBHOOK_MAX_RETRIES (so the counter reaches max + 1 when the flip
happens); a 2xx delivery resets the counter to zero; an inactive
subscription is never in the attempted set of a notify call and is left
unchanged by it. -/
theorem webhook_failure_policy (m now u : Nat) (event : String)
    (oc : Nat → HttpOutcome) (ws : List Webhook) (w : Webhook) :
    ((deliverOne m now HttpOutcome.failure w).failureCount = w.failureCount + 1)
    ∧ (w.isActive = true →
        ((deliverOne m now HttpOutcome.failure w).isActive = false ↔ m ≤ w.failureCount))
    ∧ ((deliverOne m now HttpOutcome.success w).failureCount = 0)
    ∧ (w ∈ ws → w.isActive = false →
        w ∉ attemptedDeliveries u event ws ∧ w ∈ triggerWebhook m now u event oc ws) := by
  refine ⟨?_, ?_, rfl, ?_⟩
  · by_cases hle : m ≤ w.failureCount <;> simp [deliverOne, hle]
  · intro hact
    by_cases hle : m ≤ w.failureCount <;> simp [deliverOne, hle, hact]
  · intro hmem hina
    constructor
    · intro habs
      have hsel := (List.mem_filter.mp habs).2
      simp [webhookSelected, hina] at hsel
    · refine List.mem_map.mpr ⟨w, hmem, ?_⟩
      simp [webhookSelected, hina]

def whC9w : Webhook := { id := 2, userId := 1, events := ["task.completed"], failureCount := 3 }

def whC9i : Webhook := { id := 3, userId := 1, events := ["task.completed"], isActive := false }

/-- C9 amended witness: with max 3 a webhook already at counter 3 is flipped
inactive by the next failure (counter 4), a success resets it, and an
inactive webhook gets no delivery attempt. -/
theorem webhook_failure_policy_witness :
    (deliverOne 3 0 HttpOutcome.failure whC9w).failureCount = 4
    ∧ (deliverOne 3 0 HttpOutcome.failure whC9w).isActive = false
    ∧ (deliverOne 3 0 HttpOutcome.success whC9w).failureCount = 0
    ∧ whC9i ∉ attemptedDeliveries 1 "task.completed" [whC9i] := by
  have h1 := webhook_failure_policy 3 0 1 "task.completed" (fun _ => HttpOutcome.failure)
    [whC9i] whC9w
  have h2 := webhook_failure_policy 3 0 1 "task.completed" (fun _ => HttpOutcome.failure)
    [whC9i] whC9i
  refine ⟨by simpa using h1.1, (h1.2.1 rfl).mpr (by decide), h1.2.2.1, ?_⟩
  exact (h2.2.2.2 (by decide) rfl).1

end TselZap
